import Mathlib

set_option maxRecDepth 8000
set_option exponentiation.threshold 1200

/-!
Verification of the ausweather observation-code resolver and BoM request
URL builder.

The URL builder is embedded from the notebook function
`fetch_bom_weather_data_complete` (notebooks/SILO data.ipynb), whose URL
construction is the f-string

  f"http://www.bom.gov.au/jsp/ncc/cdio/weatherData/av?"
  f"p_display_type={var['interval']}ZippedDataFile&"
  f"p_stn_num={station_code:06.0f}&p_nccObsCode={var['ncc_obs_code']:.0f}"
  f"&p_c={p_c:.0f}"

The format specifications `06.0f` and `.0f` are CPython float formats:
an integer argument is first converted to an IEEE-754 double
(round-to-nearest, ties-to-even, 53-bit significand; OverflowError when
the rounded magnitude exceeds the largest finite double), then printed
with no fractional digits, `06` zero-padding the result to a minimum
width of 6 characters (the sign, when present, counts towards the width
and precedes the pad zeros).  That conversion pipeline is modelled
exactly below: `roundNat53` is the significand rounding, `floatOfInt?`
is the conversion with its overflow failure, and `formatF0` /
`formatF0Pad6` are the two format specifications.
-/

/-- Binary length of a natural number, fuel-driven so that it reduces in
the kernel.  The fuel 1100 covers every value below `2 ^ 1100`; for
larger values the result is an under-approximation, which is harmless
because every such value overflows the double conversion anyway (both in
this model and in CPython). -/
def bitLenAux : Nat → Nat → Nat
  | 0, _ => 0
  | fuel + 1, n => if n = 0 then 0 else bitLenAux fuel (n / 2) + 1

/-- Number of binary digits of `n` (0 for 0). -/
def bitLen (n : Nat) : Nat := bitLenAux 1100 n

/-- Rounds a natural number to the nearest value representable with a
53-bit significand (round-to-nearest, ties-to-even): the value CPython's
int-to-float conversion produces, ignoring overflow.  Values below
`2 ^ 53` are exactly representable and returned unchanged. -/
def roundNat53 (n : Nat) : Nat :=
  if n < 2 ^ 53 then n
  else
    let e := bitLen n - 53
    let q := n / 2 ^ e
    let r := n % 2 ^ e
    let half := 2 ^ (e - 1)
    let q1 := if half < r then q + 1 else if r < half then q else if q % 2 = 0 then q else q + 1
    q1 * 2 ^ e

/-- CPython int-to-float conversion on a natural number: the rounded
value, or `none` (OverflowError) when the rounded value reaches
`2 ^ 1024`, i.e. exceeds every finite double. -/
def floatOfNat? (n : Nat) : Option Nat :=
  let r := roundNat53 n
  if r < 2 ^ 1024 then some r else none

/-- CPython int-to-float conversion on a signed integer (the conversion
is symmetric in sign). -/
def floatOfInt? (x : Int) : Option Int :=
  match x with
  | Int.ofNat n => (floatOfNat? n).map Int.ofNat
  | Int.negSucc m => (floatOfNat? (m + 1)).map (fun r => -(r : Int))

/-- Decimal digits of a natural number, most significant first,
fuel-driven so that it reduces in the kernel.  Any fuel at least the
number of digits is enough; callers pass `n` itself. -/
def natDecAux : Nat → Nat → List Char
  | 0, _ => []
  | fuel + 1, n => if n = 0 then [] else natDecAux fuel (n / 10) ++ [Char.ofNat (48 + n % 10)]

/-- Decimal representation of a natural number. -/
def natDecimal (n : Nat) : String :=
  if n = 0 then "0" else String.mk (natDecAux n n)

/-- Signed decimal representation of an integer. -/
def signedDecimal (x : Int) : String :=
  if x < 0 then "-" ++ natDecimal x.natAbs else natDecimal x.natAbs

/-- Left-pads a string with '0' characters to width `w` (no-op when the
string is already at least that wide). -/
def padZeros (w : Nat) (s : String) : String :=
  String.mk (List.replicate (w - s.length) '0') ++ s

/-- Python format specification `.0f` applied to an integer: convert to
float (possibly failing with OverflowError), print with no fractional
digits.  The converted value is always integral, so this prints its
exact decimal digits. -/
def formatF0 (x : Int) : Option String :=
  (floatOfInt? x).map signedDecimal

/-- Python format specification `06.0f` applied to an integer: as
`formatF0`, zero-padded to a minimum width of 6; for a negative value
the sign precedes the pad zeros and counts towards the width. -/
def formatF0Pad6 (x : Int) : Option String :=
  (floatOfInt? x).map (fun r =>
    if r < 0 then "-" ++ padZeros 5 (natDecimal r.natAbs)
    else padZeros 6 (natDecimal r.natAbs))

/-- The URL constructed by `fetch_bom_weather_data_complete` in
notebooks/SILO data.ipynb, as a function of the resolved variable's
interval string, the station code, the resolved numeric observation
code, and the `p_c` value taken from the prior directory lookup.
`none` models the only failure the f-string can raise on integer
arguments, OverflowError from int-to-float conversion; no other
validation is performed by the source. -/
def fetch_bom_weather_data_complete_url
    (interval : String) (station_code : Int) (ncc_obs_code : Int) (p_c : Int) :
    Option String :=
  match formatF0Pad6 station_code, formatF0 ncc_obs_code, formatF0 p_c with
  | some stn, some obs, some c =>
      some ("http://www.bom.gov.au/jsp/ncc/cdio/weatherData/av?" ++
            "p_display_type=" ++ interval ++ "ZippedDataFile&" ++
            "p_stn_num=" ++ stn ++ "&p_nccObsCode=" ++ obs ++
            "&p_c=" ++ c)
  | _, _, _ => none

/-- Modelled from the spec: the record held in the observation-code
registry of `ausweather.bom` (the module itself is not part of this
repository's sources; only the notebook that imports it is).  Fields
follow the spec's VariableDescriptor and the notebook's logged
resolution output, which shows the dictionary keys `name`,
`ncc_obs_code`, `interval` and `aliases`. -/
structure VariableDescriptor where
  name : String
  ncc_obs_code : Nat
  interval : String
  aliases : List String
deriving DecidableEq

/-- Modelled from the spec: input accepted by the resolver — either a
string alias or a numeric observation code (spec section 4.1: `alias:
string | integer`). -/
inductive ObsCodeInput where
  | alias (s : String)
  | code (n : Nat)
deriving DecidableEq

/-- Modelled from the spec: the static registry of `ausweather.bom`,
whose source is not in this repository.  Contents are taken from the
spec's example and the notebook's logged resolutions: the alias
`monthly_rain` resolves to `{name: 'Rainfall - monthly total',
ncc_obs_code: 139, interval: 'monthly', aliases: ['monthly_rain']}`,
and the alias `daily_rain` resolves to observation code 136 with daily
interval. -/
def registry : List VariableDescriptor :=
  [ { name := "Rainfall - daily total", ncc_obs_code := 136,
      interval := "daily", aliases := ["daily_rain"] },
    { name := "Rainfall - monthly total", ncc_obs_code := 139,
      interval := "monthly", aliases := ["monthly_rain"] } ]

/-- Lower-cases every character of a string (ASCII case folding, as
`str.lower()` acts on the ASCII aliases involved here). -/
def lowerStr (s : String) : String := String.mk (s.data.map Char.toLower)

/-- Modelled from the spec: whether a registry entry matches a resolver
input — a case-insensitive exact match against any of its aliases for a
string input, equality with its numeric code for an integer input. -/
def matchesInput (d : VariableDescriptor) : ObsCodeInput → Bool
  | .alias s => d.aliases.any (fun a => lowerStr a == lowerStr s)
  | .code n => d.ncc_obs_code == n

/-- Modelled from the spec: the ResolutionError message, which names the
unrecognized input (spec section 4.1: fail "with a ResolutionError
naming the unrecognized input"). -/
def resolutionErrorMsg : ObsCodeInput → String
  | .alias s => "Unknown ncc_obs_code: " ++ s
  | .code n => "Unknown ncc_obs_code: " ++ natDecimal n

/-- Modelled from the spec: `resolve_ncc_obs_code` of `ausweather.bom`
(imported but not defined in this repository's sources).  Returns the
unique registry entry matching the input, or a ResolutionError naming
the input when none matches; there is no fallback to a default
descriptor. -/
def resolve_ncc_obs_code (i : ObsCodeInput) : Except String VariableDescriptor :=
  match registry.find? (fun d => matchesInput d i) with
  | some d => Except.ok d
  | none => Except.error (resolutionErrorMsg i)

/-! Helper lemmas about the embedded formatting functions. -/

theorem natDecAux_length_le (f : Nat) :
    ∀ (k n : Nat), n < 10 ^ k → (natDecAux f n).length ≤ k := by
  induction f with
  | zero => intro k n _; simp [natDecAux]
  | succ f ih =>
    intro k n hn
    by_cases h0 : n = 0
    · simp [natDecAux, h0]
    · match k with
      | 0 => simp at hn; omega
      | k + 1 =>
        have hdiv : n / 10 < 10 ^ k := by
          rw [Nat.div_lt_iff_lt_mul (by norm_num)]
          calc n < 10 ^ (k + 1) := hn
            _ = 10 ^ k * 10 := by ring
        simp only [natDecAux, h0, if_false, List.length_append, List.length_cons,
          List.length_nil]
        have := ih k (n / 10) hdiv
        omega

theorem natDecAux_length_ge :
    ∀ (k f n : Nat), 10 ^ k ≤ n → n ≤ f → k + 1 ≤ (natDecAux f n).length := by
  intro k
  induction k with
  | zero =>
    intro f n hn hf
    have h0 : n ≠ 0 := by simp at hn; omega
    match f with
    | 0 => omega
    | f + 1 =>
      simp only [natDecAux, h0, if_false, List.length_append, List.length_cons,
        List.length_nil]
      omega
  | succ k ih =>
    intro f n hn hf
    have h10 : (10 : Nat) ^ (k + 1) ≥ 10 := by
      calc (10 : Nat) ^ (k + 1) ≥ 10 ^ 1 := Nat.pow_le_pow_right (by norm_num) (by omega)
        _ = 10 := by norm_num
    have h0 : n ≠ 0 := by omega
    match f with
    | 0 => omega
    | f + 1 =>
      have hdiv : 10 ^ k ≤ n / 10 := by
        rw [Nat.le_div_iff_mul_le (by norm_num)]
        calc 10 ^ k * 10 = 10 ^ (k + 1) := by ring
          _ ≤ n := hn
      have hfuel : n / 10 ≤ f := by
        have : n / 10 < n := Nat.div_lt_self (by omega) (by norm_num)
        omega
      simp only [natDecAux, h0, if_false, List.length_append, List.length_cons,
        List.length_nil]
      have := ih f (n / 10) hdiv hfuel
      omega

theorem natDecimal_length_le (n k : Nat) (hn : n < 10 ^ k) (hk : 0 < k) :
    (natDecimal n).length ≤ k := by
  by_cases h0 : n = 0
  · have h1 : ("0" : String).length = 1 := rfl
    simp [natDecimal, h0, h1]; omega
  · simp only [natDecimal, h0, if_false, String.length_mk]
    exact natDecAux_length_le n k n hn

theorem natDecimal_length_ge (n k : Nat) (hn : 10 ^ k ≤ n) :
    k + 1 ≤ (natDecimal n).length := by
  have h0 : n ≠ 0 := by
    have : (1 : Nat) ≤ 10 ^ k := Nat.one_le_pow _ _ (by norm_num)
    omega
  simp only [natDecimal, h0, if_false, String.length_mk]
  exact natDecAux_length_ge k n n hn le_rfl

theorem padZeros_length (w : Nat) (s : String) :
    (padZeros w s).length = max w s.length := by
  simp only [padZeros, String.length_append, String.length_mk, List.length_replicate]
  omega

theorem padZeros_eq_self (w : Nat) (s : String) (h : w ≤ s.length) :
    padZeros w s = s := by
  have hz : w - s.length = 0 := by omega
  simp only [padZeros, hz, List.replicate_zero]
  cases s with
  | mk data => rfl

theorem floatOfNat?_small (n : Nat) (h : n < 2 ^ 53) : floatOfNat? n = some n := by
  have hr : roundNat53 n = n := by rw [roundNat53, if_pos h]
  have h2 : n < 2 ^ 1024 := by
    calc n < 2 ^ 53 := h
      _ ≤ 2 ^ 1024 := Nat.pow_le_pow_right (by norm_num) (by norm_num)
  rw [floatOfNat?]
  simp only [hr, if_pos h2]

theorem floatOfInt?_small (x : Int) (h : x.natAbs < 2 ^ 53) : floatOfInt? x = some x := by
  match x with
  | Int.ofNat n =>
    have : n < 2 ^ 53 := by simpa using h
    simp [floatOfInt?, floatOfNat?_small n this]
  | Int.negSucc m =>
    have : m + 1 < 2 ^ 53 := by simpa [Int.natAbs] using h
    simp [floatOfInt?, floatOfNat?_small (m + 1) this, Int.negSucc_eq]

theorem signedDecimal_ofNat (n : Nat) : signedDecimal (n : Int) = natDecimal n := by
  have : ¬ ((n : Int) < 0) := by omega
  simp [signedDecimal, this]

theorem formatF0_small (x : Int) (h : x.natAbs < 2 ^ 53) :
    formatF0 x = some (signedDecimal x) := by
  rw [formatF0, floatOfInt?_small x h, Option.map_some']

theorem formatF0Pad6_nat (n : Nat) (h : n < 2 ^ 53) :
    formatF0Pad6 (n : Int) = some (padZeros 6 (natDecimal n)) := by
  have habs : (n : Int).natAbs = n := Int.natAbs_ofNat n
  have hnn : ¬ ((n : Int) < 0) := by omega
  rw [formatF0Pad6, floatOfInt?_small (n : Int) (by omega), Option.map_some']
  simp [hnn, habs]

theorem formatF0_nat (n : Nat) (h : n < 2 ^ 53) : formatF0 (n : Int) = some (natDecimal n) := by
  rw [formatF0_small (n : Int) (by omega), signedDecimal_ofNat]

theorem url_spec (interval : String) (s k : Nat) (c : Int)
    (hs : s < 2 ^ 53) (hk : k < 2 ^ 53) (hc : c.natAbs < 2 ^ 53) :
    fetch_bom_weather_data_complete_url interval (s : Int) (k : Int) c =
      some ("http://www.bom.gov.au/jsp/ncc/cdio/weatherData/av?" ++
            "p_display_type=" ++ interval ++ "ZippedDataFile&" ++
            "p_stn_num=" ++ padZeros 6 (natDecimal s) ++ "&p_nccObsCode=" ++ natDecimal k ++
            "&p_c=" ++ signedDecimal c) := by
  rw [fetch_bom_weather_data_complete_url, formatF0Pad6_nat s hs, formatF0_nat k hk,
    formatF0_small c hc]

/-! Claim theorems. -/

/-- C1: for code 139, station 23000, interval monthly, c -105819125, the
URL builder returns a URL string containing exactly the query fragment
`p_display_type=monthlyZippedDataFile&p_stn_num=023000&p_nccObsCode=139&p_c=-105819125`
(the URL is the fixed base followed by that fragment). -/
theorem url_monthly_rain_example :
    fetch_bom_weather_data_complete_url "monthly" 23000 139 (-105819125) =
      some ("http://www.bom.gov.au/jsp/ncc/cdio/weatherData/av?" ++
            "p_display_type=monthlyZippedDataFile&p_stn_num=023000&p_nccObsCode=139&p_c=-105819125") := by
  decide

/-- C2: for every station code between 0 and 999999, the URL builder
formats `p_stn_num` as the exactly-6-digit zero-padded decimal
representation of the station code, with no truncation and no
overflow. -/
theorem stn_num_zero_pad_six (n : Nat) (h : n ≤ 999999) :
    formatF0Pad6 (n : Int) = some (padZeros 6 (natDecimal n)) ∧
    (padZeros 6 (natDecimal n)).length = 6 := by
  have h53 : n < 2 ^ 53 := lt_of_le_of_lt h (by norm_num)
  refine ⟨formatF0Pad6_nat n h53, ?_⟩
  have hlen : (natDecimal n).length ≤ 6 :=
    natDecimal_length_le n 6 (lt_of_le_of_lt h (by norm_num)) (by norm_num)
  rw [padZeros_length]
  omega

/-- Witness for `stn_num_zero_pad_six` at station 23000, where the
padded representation evaluates to "023000". -/
theorem stn_num_zero_pad_six_witness :
    (23000 : Nat) ≤ 999999 ∧
    (formatF0Pad6 ((23000 : Nat) : Int) = some (padZeros 6 (natDecimal 23000)) ∧
     (padZeros 6 (natDecimal 23000)).length = 6) ∧
    padZeros 6 (natDecimal 23000) = "023000" :=
  ⟨by decide, stn_num_zero_pad_six 23000 (by decide), by decide⟩

/-- C3: resolving the alias "monthly_rain" returns the descriptor whose
name is "Rainfall - monthly total", whose code is 139, whose interval is
monthly, and whose alias set is exactly {"monthly_rain"}. -/
theorem resolve_monthly_rain_example :
    resolve_ncc_obs_code (ObsCodeInput.alias "monthly_rain") =
      Except.ok { name := "Rainfall - monthly total", ncc_obs_code := 139,
                  interval := "monthly", aliases := ["monthly_rain"] } := rfl

/-- C5: the URL builder is deterministic — two calls with identical
inputs (interval, station code, observation code, c parameter) produce
identical results; it is a pure function with no side effects. -/
theorem url_builder_deterministic (i₁ i₂ : String) (s₁ s₂ k₁ k₂ c₁ c₂ : Int)
    (hi : i₁ = i₂) (hs : s₁ = s₂) (hk : k₁ = k₂) (hc : c₁ = c₂) :
    fetch_bom_weather_data_complete_url i₁ s₁ k₁ c₁ =
      fetch_bom_weather_data_complete_url i₂ s₂ k₂ c₂ := by
  subst hi; subst hs; subst hk; subst hc; rfl

/-- Witness for `url_builder_deterministic` at the notebook's inputs. -/
theorem url_builder_deterministic_witness :
    ("monthly" : String) = "monthly" ∧ (23000 : Int) = 23000 ∧ (139 : Int) = 139 ∧
    (-105819125 : Int) = -105819125 ∧
    fetch_bom_weather_data_complete_url "monthly" 23000 139 (-105819125) =
      fetch_bom_weather_data_complete_url "monthly" 23000 139 (-105819125) :=
  ⟨rfl, rfl, rfl, rfl,
   url_builder_deterministic "monthly" "monthly" 23000 23000 139 139 (-105819125) (-105819125)
     rfl rfl rfl rfl⟩

/-- C9: registry alias uniqueness — no alias (compared case-insensitively,
as the resolver matches them) appears in the alias sets of two distinct
descriptors of the registry. -/
theorem registry_alias_uniqueness :
    registry.Pairwise
      (fun d₁ d₂ => ∀ a ∈ d₁.aliases, ∀ b ∈ d₂.aliases, lowerStr a ≠ lowerStr b) := by
  decide

/-- C4 counterexample: inputs the claim requires to fail with a
ValidationError — a station code not representable in 6 digits
(1234567), and an interval ("weekly") outside the enumerated values —
instead produce URLs: the builder performs no validation. -/
theorem no_validation_error_counterexample :
    fetch_bom_weather_data_complete_url "monthly" 1234567 139 (-105819125) =
      some ("http://www.bom.gov.au/jsp/ncc/cdio/weatherData/av?" ++
            "p_display_type=monthlyZippedDataFile&p_stn_num=1234567&p_nccObsCode=139&p_c=-105819125") ∧
    fetch_bom_weather_data_complete_url "weekly" 23000 139 (-105819125) =
      some ("http://www.bom.gov.au/jsp/ncc/cdio/weatherData/av?" ++
            "p_display_type=weeklyZippedDataFile&p_stn_num=023000&p_nccObsCode=139&p_c=-105819125") := by
  decide

/-- C4 amended: the URL builder validates nothing — for every interval
string (including ones outside the enumerated values) and every station
code, observation code and c value small enough to convert to float
exactly, it returns a URL formed by direct interpolation, wide station
codes included; no ValidationError exists in the construction. -/
theorem url_builder_no_validation (interval : String) (s k : Nat) (c : Int)
    (hs : s < 2 ^ 53) (hk : k < 2 ^ 53) (hc : c.natAbs < 2 ^ 53) :
    fetch_bom_weather_data_complete_url interval (s : Int) (k : Int) c =
      some ("http://www.bom.gov.au/jsp/ncc/cdio/weatherData/av?" ++
            "p_display_type=" ++ interval ++ "ZippedDataFile&" ++
            "p_stn_num=" ++ padZeros 6 (natDecimal s) ++ "&p_nccObsCode=" ++ natDecimal k ++
            "&p_c=" ++ signedDecimal c) :=
  url_spec interval s k c hs hk hc

/-- Witness for `url_builder_no_validation` at the unknown interval
"weekly" and the 7-digit station code 1234567. -/
theorem url_builder_no_validation_witness :
    (1234567 : Nat) < 2 ^ 53 ∧ (139 : Nat) < 2 ^ 53 ∧ (-105819125 : Int).natAbs < 2 ^ 53 ∧
    fetch_bom_weather_data_complete_url "weekly" ((1234567 : Nat) : Int) ((139 : Nat) : Int)
        (-105819125) =
      some ("http://www.bom.gov.au/jsp/ncc/cdio/weatherData/av?" ++
            "p_display_type=" ++ "weekly" ++ "ZippedDataFile&" ++
            "p_stn_num=" ++ padZeros 6 (natDecimal 1234567) ++ "&p_nccObsCode=" ++
            natDecimal 139 ++ "&p_c=" ++ signedDecimal (-105819125)) :=
  ⟨by decide, by decide, by decide,
   url_builder_no_validation "weekly" 1234567 139 (-105819125) (by decide) (by decide)
     (by decide)⟩

/-- C6 counterexample: at c = -(2^53 + 1) the p_c component is not the
signed decimal representation of c — the float conversion inside the
format specification rounds the value to -(2^53). -/
theorem p_c_float_rounding_counterexample :
    signedDecimal (-(2 ^ 53 + 1) : Int) = "-9007199254740993" ∧
    formatF0 (-(2 ^ 53 + 1) : Int) = some "-9007199254740992" ∧
    formatF0 (-(2 ^ 53 + 1) : Int) ≠ some (signedDecimal (-(2 ^ 53 + 1) : Int)) ∧
    fetch_bom_weather_data_complete_url "monthly" 23000 139 (-(2 ^ 53 + 1)) =
      some ("http://www.bom.gov.au/jsp/ncc/cdio/weatherData/av?" ++
            "p_display_type=monthlyZippedDataFile&p_stn_num=023000&p_nccObsCode=139&p_c=-9007199254740992") := by
  refine ⟨by decide, by decide, ?_, by decide⟩
  intro h
  have h1 : formatF0 (-(2 ^ 53 + 1) : Int) = some "-9007199254740992" := by decide
  have h2 : signedDecimal (-(2 ^ 53 + 1) : Int) = "-9007199254740993" := by decide
  rw [h1, h2] at h
  exact absurd (Option.some.inj h) (by decide)

/-- C6 amended: for every c parameter whose magnitude is below 2^53
(hence exactly representable as a double, as every value the provider's
directory lookup returns is), the p_c component of the built URL is
exactly the signed decimal representation of c, passed through
unmodified. -/
theorem p_c_passthrough_exact (interval : String) (s k : Nat) (c : Int)
    (hs : s < 2 ^ 53) (hk : k < 2 ^ 53) (hc : c.natAbs < 2 ^ 53) :
    formatF0 c = some (signedDecimal c) ∧
    fetch_bom_weather_data_complete_url interval (s : Int) (k : Int) c =
      some ("http://www.bom.gov.au/jsp/ncc/cdio/weatherData/av?" ++
            "p_display_type=" ++ interval ++ "ZippedDataFile&" ++
            "p_stn_num=" ++ padZeros 6 (natDecimal s) ++ "&p_nccObsCode=" ++ natDecimal k ++
            "&p_c=" ++ signedDecimal c) :=
  ⟨formatF0_small c hc, url_spec interval s k c hs hk hc⟩

/-- Witness for `p_c_passthrough_exact` at the notebook's inputs,
including the negative c value -105819125. -/
theorem p_c_passthrough_exact_witness :
    (23000 : Nat) < 2 ^ 53 ∧ (139 : Nat) < 2 ^ 53 ∧ (-105819125 : Int).natAbs < 2 ^ 53 ∧
    (formatF0 (-105819125) = some (signedDecimal (-105819125)) ∧
     fetch_bom_weather_data_complete_url "monthly" ((23000 : Nat) : Int) ((139 : Nat) : Int)
         (-105819125) =
       some ("http://www.bom.gov.au/jsp/ncc/cdio/weatherData/av?" ++
             "p_display_type=" ++ "monthly" ++ "ZippedDataFile&" ++
             "p_stn_num=" ++ padZeros 6 (natDecimal 23000) ++ "&p_nccObsCode=" ++
             natDecimal 139 ++ "&p_c=" ++ signedDecimal (-105819125))) :=
  ⟨by decide, by decide, by decide,
   p_c_passthrough_exact "monthly" 23000 139 (-105819125) (by decide) (by decide) (by decide)⟩

/-- C7: for every input — alias or numeric code — matching no descriptor
of the registry, the resolver fails with a ResolutionError naming the
unrecognized input; it never falls back to a default descriptor. -/
theorem resolve_unknown_error (i : ObsCodeInput)
    (h : ∀ d ∈ registry, matchesInput d i = false) :
    resolve_ncc_obs_code i = Except.error (resolutionErrorMsg i) := by
  have hnone : registry.find? (fun d => matchesInput d i) = none := by
    rw [List.find?_eq_none]
    intro d hd
    simp [h d hd]
  rw [resolve_ncc_obs_code, hnone]

/-- Witness for `resolve_unknown_error` at the unknown alias
"fortnightly_rain"; the error message names it. -/
theorem resolve_unknown_error_witness :
    (∀ d ∈ registry, matchesInput d (ObsCodeInput.alias "fortnightly_rain") = false) ∧
    resolve_ncc_obs_code (ObsCodeInput.alias "fortnightly_rain") =
      Except.error ("Unknown ncc_obs_code: " ++ "fortnightly_rain") :=
  ⟨by decide, resolve_unknown_error (ObsCodeInput.alias "fortnightly_rain") (by decide)⟩

/-- C8: for every descriptor in the registry and every alias in its
alias set, resolving any string with the same letters in any case
returns that descriptor (case-insensitive exact match). -/
theorem resolve_case_insensitive (d : VariableDescriptor) (hd : d ∈ registry)
    (a : String) (ha : a ∈ d.aliases) (s : String) (hs : lowerStr s = lowerStr a) :
    resolve_ncc_obs_code (ObsCodeInput.alias s) = Except.ok d := by
  simp only [registry, List.mem_cons, List.not_mem_nil, or_false] at hd
  rcases hd with rfl | rfl
  · simp only [List.mem_singleton] at ha
    subst ha
    have hs1 : lowerStr s = "daily_rain" := hs.trans (by decide)
    simp only [resolve_ncc_obs_code, registry, matchesInput, List.find?, List.any, hs1]
    rfl
  · simp only [List.mem_singleton] at ha
    subst ha
    have hs1 : lowerStr s = "monthly_rain" := hs.trans (by decide)
    simp only [resolve_ncc_obs_code, registry, matchesInput, List.find?, List.any, hs1]
    rfl

/-- Witness for `resolve_case_insensitive`: the upper-case variant
"MONTHLY_RAIN" of the alias "monthly_rain" resolves to the monthly
rainfall descriptor. -/
theorem resolve_case_insensitive_witness :
    ({ name := "Rainfall - monthly total", ncc_obs_code := 139, interval := "monthly", aliases := ["monthly_rain"] } : VariableDescriptor) ∈ registry ∧
    "monthly_rain" ∈ ({ name := "Rainfall - monthly total", ncc_obs_code := 139, interval := "monthly", aliases := ["monthly_rain"] } : VariableDescriptor).aliases ∧
    lowerStr "MONTHLY_RAIN" = lowerStr "monthly_rain" ∧
    resolve_ncc_obs_code (ObsCodeInput.alias "MONTHLY_RAIN") =
      Except.ok { name := "Rainfall - monthly total", ncc_obs_code := 139,
                  interval := "monthly", aliases := ["monthly_rain"] } :=
  ⟨by decide, by decide, by decide,
   resolve_case_insensitive _ (by decide) "monthly_rain" (by decide) "MONTHLY_RAIN" (by decide)⟩

/-- C10 counterexample: at station code 2^53 + 1 (17 decimal digits) the
URL construction still raises no error, but the emitted `p_stn_num` is
9007199254740992, not the station code's decimal representation
9007199254740993 — the float conversion inside the format specification
rounds it. -/
theorem wide_station_code_counterexample :
    fetch_bom_weather_data_complete_url "monthly" ((2 ^ 53 + 1 : Nat) : Int) 139 (-105819125) =
      some ("http://www.bom.gov.au/jsp/ncc/cdio/weatherData/av?" ++
            "p_display_type=monthlyZippedDataFile&p_stn_num=9007199254740992&p_nccObsCode=139&p_c=-105819125") ∧
    natDecimal (2 ^ 53 + 1) = "9007199254740993" ∧
    formatF0Pad6 ((2 ^ 53 + 1 : Nat) : Int) ≠ some (natDecimal (2 ^ 53 + 1)) := by
  refine ⟨by decide, by decide, ?_⟩
  intro h
  have h1 : formatF0Pad6 ((2 ^ 53 + 1 : Nat) : Int) = some "9007199254740992" := by decide
  have h2 : natDecimal (2 ^ 53 + 1) = "9007199254740993" := by decide
  rw [h1, h2] at h
  exact absurd (Option.some.inj h) (by decide)

/-- C10 amended: for every station code with more than 6 decimal digits
that is below 2^53 (hence exactly representable as a double), the URL
construction raises no error and emits `p_stn_num` as the full
untruncated decimal representation, wider than 6 characters. -/
theorem wide_station_code_full_width (n : Nat) (h6 : 999999 < n) (h53 : n < 2 ^ 53) :
    formatF0Pad6 (n : Int) = some (natDecimal n) ∧ 6 < (natDecimal n).length ∧
    fetch_bom_weather_data_complete_url "monthly" (n : Int) ((139 : Nat) : Int) (-105819125) =
      some ("http://www.bom.gov.au/jsp/ncc/cdio/weatherData/av?" ++
            "p_display_type=" ++ "monthly" ++ "ZippedDataFile&" ++
            "p_stn_num=" ++ natDecimal n ++ "&p_nccObsCode=" ++ natDecimal 139 ++
            "&p_c=" ++ signedDecimal (-105819125)) := by
  have h10 : 10 ^ 6 ≤ n := by norm_num; omega
  have hge : 7 ≤ (natDecimal n).length := natDecimal_length_ge n 6 h10
  have hpad : padZeros 6 (natDecimal n) = natDecimal n := padZeros_eq_self _ _ (by omega)
  refine ⟨?_, by omega, ?_⟩
  · rw [formatF0Pad6_nat n h53, hpad]
  · have hurl := url_spec "monthly" n 139 (-105819125) h53 (by decide) (by decide)
    rw [hurl, hpad]

/-- Witness for `wide_station_code_full_width` at the 7-digit station
code 1234567. -/
theorem wide_station_code_full_width_witness :
    999999 < 1234567 ∧ (1234567 : Nat) < 2 ^ 53 ∧
    (formatF0Pad6 ((1234567 : Nat) : Int) = some (natDecimal 1234567) ∧
     6 < (natDecimal 1234567).length ∧
     fetch_bom_weather_data_complete_url "monthly" ((1234567 : Nat) : Int) ((139 : Nat) : Int)
         (-105819125) =
       some ("http://www.bom.gov.au/jsp/ncc/cdio/weatherData/av?" ++
             "p_display_type=" ++ "monthly" ++ "ZippedDataFile&" ++
             "p_stn_num=" ++ natDecimal 1234567 ++ "&p_nccObsCode=" ++ natDecimal 139 ++
             "&p_c=" ++ signedDecimal (-105819125))) :=
  ⟨by decide, by decide, wide_station_code_full_width 1234567 (by decide) (by decide)⟩
